import Mathlib

/-!
Verification of the three-body-problem simulator.

The Python sources are shallowly embedded here: machine floats become real
numbers, in-place mutation of a body becomes a function returning the new
body, and the canvas's in-place pass over its list of bodies becomes an
indexed fold that rewrites one list entry at a time.  Identity comparison
of Python objects (bodies stored at distinct list indices are distinct
objects) is represented by the index, respectively by an explicit flag
passed to the pairwise-force function.
-/

namespace ThreeBody

/-! Constants from threeBodyProblem/constants.py. -/

def WIDTH : ℝ := 1000
def HEIGHT : ℝ := 1000
def BODY_TRAIL_LENGTH : ℕ := 1000
noncomputable def GRAVITATIONAL_CONSTANT : ℝ := 0.6
def MAX_BODY_RADIUS : ℝ := 100
def MIN_BODY_RADIUS : ℝ := 2
def DEFAULT_BODY_DENSITY : ℝ := 1
def DEFAULT_BODY_MASS : ℝ := 1000
noncomputable def DEFAULT_BODY_DISTANCE : ℝ := WIDTH / 3
noncomputable def DEFAULT_BODY_VELOCITY_FACTOR : ℝ := 0.003
noncomputable def VELOCITY_LOSS_FACTOR : ℝ := 0.9

/-- State of a Body (threeBodyProblem/objects/body.py).  The `vector` field
is the velocity list `self._vector`, `pos_history` the deque
`self._pos_history` (head = oldest entry). -/
structure Body where
  number : ℕ
  mass : ℝ
  x : ℝ
  y : ℝ
  vector : ℝ × ℝ
  is_stationary : Bool
  g_constant : ℝ
  density : ℝ
  radius : ℝ
  pos_history : List (ℝ × ℝ)

instance : Inhabited Body := ⟨⟨0, 0, 0, 0, (0, 0), false, 0, 0, 0, []⟩⟩

/-- Embedding of Body._calculate_radius: the Python expression
`(3 / 4 * math.pi) * (self._mass / self._density) ** (1 / 3)` followed by
the clamp against MAX_BODY_RADIUS and MIN_BODY_RADIUS. -/
noncomputable def calculate_radius (mass density : ℝ) : ℝ :=
  let r := 3 / 4 * Real.pi * (mass / density) ^ ((1 : ℝ) / 3)
  if r > MAX_BODY_RADIUS then MAX_BODY_RADIUS
  else if r < MIN_BODY_RADIUS then MIN_BODY_RADIUS
  else r

/-- Radius formula as the specification states it (section 8 of the spec and
the docstring of Body._calculate_radius): the cube root of `3m/(4 pi d)`,
clamped into [MIN_BODY_RADIUS, MAX_BODY_RADIUS]. -/
noncomputable def radius_spec (mass density : ℝ) : ℝ :=
  let raw := (3 * mass / (4 * Real.pi * density)) ^ ((1 : ℝ) / 3)
  if raw < MIN_BODY_RADIUS then MIN_BODY_RADIUS
  else if raw > MAX_BODY_RADIUS then MAX_BODY_RADIUS
  else raw

/-- Embedding of the Body constructor: stores the given fields, starts with
an empty position history and derives the radius from mass and density.
Initial coordinates are integers, as in the constructor signature. -/
noncomputable def mkBody (number : ℕ) (mass : ℝ) (init_x init_y : ℤ)
    (init_vector : ℝ × ℝ) (is_stat : Bool) (g density : ℝ) : Body :=
  { number := number
    mass := mass
    x := (init_x : ℝ)
    y := (init_y : ℝ)
    vector := init_vector
    is_stationary := is_stat
    g_constant := g
    density := density
    radius := calculate_radius mass density
    pos_history := [] }

/-- Embedding of Body.calculate_impact_on.  The Python guard
`self == other` compares object identity; since the embedding has no
object identity, the caller passes the flag `same` (the canvas passes
`same = false` exactly for pairs at distinct list indices, which in the
code are always distinct objects).  Mutation of `self._vector` becomes the
returned body; `other` is a plain read-only argument. -/
noncomputable def calculate_impact_on (self other : Body) (same : Bool) : Body :=
  if self.is_stationary || same then self
  else
    let d := Real.sqrt ((self.x - other.x) ^ 2 + (self.y - other.y) ^ 2)
    if d ≤ self.radius + other.radius then self
    else
      let dx := self.x - other.x
      let dy := self.y - other.y
      let gravitational_force := self.g_constant * self.mass * other.mass / d ^ 2
      let Fx := gravitational_force * dx / d
      let Fy := gravitational_force * dy / d
      { self with
        vector := (self.vector.1 + -Fx / self.mass, self.vector.2 + -Fy / self.mass) }

/-- Embedding of Body._check_and_update_boundary: returns the updated axis
coordinate together with the updated velocity component (the Python code
mutates `self._vector[vector_index]` in place and returns the axis). -/
noncomputable def check_and_update_boundary (axis limit radius v : ℝ) : ℝ × ℝ :=
  if axis < radius then (1 + radius, -VELOCITY_LOSS_FACTOR * v)
  else if axis > limit - radius then (limit - radius, -VELOCITY_LOSS_FACTOR * v)
  else (axis, v)

/-- Append on a `collections.deque` with a maximal length of `cap` (with
`1 ≤ cap`, as in the only instantiation `cap = BODY_TRAIL_LENGTH`): when
the deque is full the leftmost (oldest) element is discarded before the
new element is appended on the right. -/
def deque_append (cap : ℕ) (q : List (ℝ × ℝ)) (a : ℝ × ℝ) : List (ℝ × ℝ) :=
  if q.length < cap then q ++ [a] else q.drop 1 ++ [a]

/-- Embedding of Body.update: explicit Euler step, then the post-Euler
position is appended to the history (Body._update_pos_history), then each
axis is passed through the boundary bounce. -/
noncomputable def Body.update (b : Body) : Body :=
  let x1 := b.x + b.vector.1
  let y1 := b.y + b.vector.2
  let hist := deque_append BODY_TRAIL_LENGTH b.pos_history (x1, y1)
  let rx := check_and_update_boundary x1 WIDTH b.radius b.vector.1
  let ry := check_and_update_boundary y1 HEIGHT b.radius b.vector.2
  { b with x := rx.1, y := ry.1, vector := (rx.2, ry.2), pos_history := hist }

/-- Iterated Body.update. -/
noncomputable def updateN : ℕ → Body → Body
  | 0, b => b
  | n + 1, b => Body.update (updateN n b)

/-- Inner loop of Canvas.update for the body at index `i`: the body
accumulates the impact of every other body (`for body2 in self._bodies:
if body1 == body2: continue; body1.calculate_impact_on(body2)`).  `state`
is the current content of `self._bodies`; entries at indices below `i`
have already been integrated during this pass, as in the Python code. -/
noncomputable def inner_pass (state : List Body) (i : ℕ) : Body :=
  (List.range state.length).foldl
    (fun b j => if j = i then b else calculate_impact_on b (state.getD j default) false)
    (state.getD i default)

/-- Outer loop of Canvas.update: processes the bodies at indices
`i, i + 1, ...` (`fuel` many), replacing each processed entry by its
impacted-then-integrated value, exactly as the in-place mutation does. -/
noncomputable def canvas_loop : ℕ → ℕ → List Body → List Body
  | 0, _, state => state
  | fuel + 1, i, state =>
      canvas_loop fuel (i + 1) (state.set i (Body.update (inner_pass state i)))

/-- Embedding of Canvas.update: one full pass over the body list. -/
noncomputable def canvas_update (bodies : List Body) : List Body :=
  canvas_loop bodies.length 0 bodies

/-- Iterated Canvas.update (n simulation ticks). -/
noncomputable def canvas_updateN : ℕ → List Body → List Body
  | 0, bodies => bodies
  | n + 1, bodies => canvas_update (canvas_updateN n bodies)

/-- Python `int()` applied to a float: truncation toward zero. -/
noncomputable def pyInt (r : ℝ) : ℤ :=
  if 0 ≤ r then ⌊r⌋ else ⌈r⌉

/-- Embedding of SimulationParams (threeBodyProblem/simulation_params.py). -/
structure SimulationParams where
  alpha : ℤ
  body_distance : ℝ
  mass : ℝ
  g_constant : ℝ

/-- Vertices of the initial equilateral triangle, exactly as computed in
Simulation._init_bodies (threeBodyProblem/simulation.py) before the
coordinates are passed through `int()`. -/
noncomputable def bodies_init_pos (body_distance : ℝ) : List (ℝ × ℝ) :=
  let center_x := WIDTH / 2
  let center_y := HEIGHT / 2
  let height := Real.sqrt 3 / 2 * body_distance
  [(center_x - body_distance / 2, center_y + height / 2),
   (center_x + body_distance / 2, center_y + height / 2),
   (center_x, center_y - height / 2)]

/-- Embedding of Simulation._init_bodies: each vertex is zipped with the
cyclically next vertex; the velocity is the difference of the exact
vertices scaled by DEFAULT_BODY_VELOCITY_FACTOR, while the stored initial
position is the vertex passed through `int()` (the Body constructor takes
integer coordinates).  Density is left at its default. -/
noncomputable def init_bodies (p : SimulationParams) : List Body :=
  let pos := bodies_init_pos p.body_distance
  (List.enum (pos.zip (pos.drop 1 ++ pos.take 1))).map fun q =>
    mkBody (q.1 + 1) p.mass (pyInt q.2.1.1) (pyInt q.2.1.2)
      ((q.2.2.1 - q.2.1.1) * DEFAULT_BODY_VELOCITY_FACTOR,
       (q.2.2.2 - q.2.1.2) * DEFAULT_BODY_VELOCITY_FACTOR)
      false p.g_constant DEFAULT_BODY_DENSITY

/-- Simulation state: the immutable parameters and the canvas's body list
(threeBodyProblem/simulation.py). -/
structure Simulation where
  params : SimulationParams
  bodies : List Body

/-- Simulation construction: _init_canvas creates an empty canvas and
_init_bodies fills it. -/
noncomputable def Simulation.start (p : SimulationParams) : Simulation :=
  ⟨p, init_bodies p⟩

/-- Physics part of Simulation.run: one Canvas.update tick (drawing has no
effect on the state). -/
noncomputable def Simulation.tick (s : Simulation) : Simulation :=
  ⟨s.params, canvas_update s.bodies⟩

/-- Embedding of Simulation.reset: Canvas.reset clears the body list and
_init_bodies refills it from the unchanged parameters. -/
noncomputable def Simulation.reset (s : Simulation) : Simulation :=
  ⟨s.params, init_bodies s.params⟩

/-- Iterated simulation ticks. -/
noncomputable def tickN : ℕ → Simulation → Simulation
  | 0, s => s
  | n + 1, s => Simulation.tick (tickN n s)

/-- Iterated resets. -/
noncomputable def resetN : ℕ → Simulation → Simulation
  | 0, s => s
  | n + 1, s => Simulation.reset (resetN n s)

/-- A body position inside the WIDTH x HEIGHT display area. -/
def in_display_bounds (b : Body) : Prop :=
  0 ≤ b.x ∧ b.x ≤ WIDTH ∧ 0 ≤ b.y ∧ b.y ≤ HEIGHT

/-- Radius constraint under which one bounce step lands inside the display:
nonnegative and at most 499 (so that 1 + radius ≤ limit - radius for both
limits, which are 1000). -/
def radius_ok (b : Body) : Prop :=
  0 ≤ b.radius ∧ b.radius ≤ 499

/-- Euclidean distance in the plane. -/
noncomputable def planar_dist (a b : ℝ × ℝ) : ℝ :=
  Real.sqrt ((a.1 - b.1) ^ 2 + (a.2 - b.2) ^ 2)

/-- Concrete simulation parameters with body_distance 2 (used to exhibit
the effect of the `int()` truncation of the vertex coordinates). -/
noncomputable def pC6 : SimulationParams := ⟨255, 2, 1000, 0.6⟩

/-- Simulation parameters of the end-to-end scenario: triangle side 333,
mass 1000, gravitational constant 0.6. -/
noncomputable def pC9 : SimulationParams := ⟨255, 333, 1000, 0.6⟩

/-- Concrete witness body: at the origin, radius 1, moving east. -/
def bodyA : Body := ⟨1, 1, 0, 0, (0, 0), false, 1, 1, 1, []⟩

/-- Concrete witness body: five units east of bodyA, radius 1. -/
def bodyB : Body := ⟨2, 1, 5, 0, (0, 0), false, 1, 1, 1, []⟩

/-- Concrete witness body: stationary flag set, in the interior of the
display, moving east with unit speed. -/
def bodyS : Body := ⟨3, 1, 500, 500, (1, 0), true, 1, 1, 2, []⟩

/-- Concrete witness body: one unit east of bodyA (overlapping). -/
def bodyC : Body := ⟨2, 1, 1, 0, (0, 0), false, 1, 1, 1, []⟩

/-- Concrete witness body: at the same position as bodyA. -/
def bodyD : Body := ⟨2, 1, 0, 0, (0, 0), false, 1, 1, 1, []⟩

/-! Helper lemmas about calculate_impact_on. -/

lemma impact_stationary (self other : Body) (same : Bool)
    (h : self.is_stationary = true) :
    calculate_impact_on self other same = self := by
  unfold calculate_impact_on
  rw [h]
  simp

lemma impact_same (self other : Body) :
    calculate_impact_on self other true = self := by
  unfold calculate_impact_on
  simp

lemma impact_close (self other : Body) (same : Bool)
    (h : Real.sqrt ((self.x - other.x) ^ 2 + (self.y - other.y) ^ 2) ≤
      self.radius + other.radius) :
    calculate_impact_on self other same = self := by
  unfold calculate_impact_on
  by_cases hb : (self.is_stationary || same) = true
  · rw [if_pos hb]
  · rw [if_neg hb]
    simp only [if_pos h]

lemma impact_far (self other : Body)
    (hs : self.is_stationary = false)
    (hd : self.radius + other.radius <
      Real.sqrt ((self.x - other.x) ^ 2 + (self.y - other.y) ^ 2)) :
    calculate_impact_on self other false =
      { self with
        vector :=
          (self.vector.1 +
            -(self.g_constant * self.mass * other.mass /
                Real.sqrt ((self.x - other.x) ^ 2 + (self.y - other.y) ^ 2) ^ 2 *
                (self.x - other.x) /
                Real.sqrt ((self.x - other.x) ^ 2 + (self.y - other.y) ^ 2)) /
              self.mass,
           self.vector.2 +
            -(self.g_constant * self.mass * other.mass /
                Real.sqrt ((self.x - other.x) ^ 2 + (self.y - other.y) ^ 2) ^ 2 *
                (self.y - other.y) /
                Real.sqrt ((self.x - other.x) ^ 2 + (self.y - other.y) ^ 2)) /
              self.mass) } := by
  unfold calculate_impact_on
  rw [hs]
  simp only [Bool.or_self, Bool.false_eq_true, if_false, if_neg (not_le.mpr hd)]

/-! Helper lemmas about Body.update. -/

lemma update_x (b : Body) :
    (Body.update b).x =
      if b.x + b.vector.1 < b.radius then 1 + b.radius
      else if b.x + b.vector.1 > WIDTH - b.radius then WIDTH - b.radius
      else b.x + b.vector.1 := by
  simp only [Body.update, check_and_update_boundary]
  split_ifs <;> rfl

lemma update_y (b : Body) :
    (Body.update b).y =
      if b.y + b.vector.2 < b.radius then 1 + b.radius
      else if b.y + b.vector.2 > HEIGHT - b.radius then HEIGHT - b.radius
      else b.y + b.vector.2 := by
  simp only [Body.update, check_and_update_boundary]
  split_ifs <;> rfl

lemma update_vx (b : Body) :
    (Body.update b).vector.1 =
      if b.x + b.vector.1 < b.radius then -VELOCITY_LOSS_FACTOR * b.vector.1
      else if b.x + b.vector.1 > WIDTH - b.radius then
        -VELOCITY_LOSS_FACTOR * b.vector.1
      else b.vector.1 := by
  simp only [Body.update, check_and_update_boundary]
  split_ifs <;> rfl

lemma update_vy (b : Body) :
    (Body.update b).vector.2 =
      if b.y + b.vector.2 < b.radius then -VELOCITY_LOSS_FACTOR * b.vector.2
      else if b.y + b.vector.2 > HEIGHT - b.radius then
        -VELOCITY_LOSS_FACTOR * b.vector.2
      else b.vector.2 := by
  simp only [Body.update, check_and_update_boundary]
  split_ifs <;> rfl

lemma update_mass (b : Body) : (Body.update b).mass = b.mass := rfl

lemma update_radius (b : Body) : (Body.update b).radius = b.radius := rfl

lemma update_hist (b : Body) :
    (Body.update b).pos_history =
      deque_append BODY_TRAIL_LENGTH b.pos_history
        (b.x + b.vector.1, b.y + b.vector.2) := rfl

/-- Evaluation of the code's radius at mass 1, density 1. -/
lemma calculate_radius_one_one : calculate_radius 1 1 = 3 / 4 * Real.pi := by
  have hpi3 := Real.pi_gt_three
  have hpi4 := Real.pi_lt_d2
  unfold calculate_radius
  have h1 : ((1 : ℝ) / 1) ^ ((1 : ℝ) / 3) = 1 := by
    norm_num [Real.one_rpow]
  rw [h1]
  have hle : ¬ 3 / 4 * Real.pi * 1 > MAX_BODY_RADIUS := by
    unfold MAX_BODY_RADIUS; nlinarith
  have hge : ¬ 3 / 4 * Real.pi * 1 < MIN_BODY_RADIUS := by
    unfold MIN_BODY_RADIUS; nlinarith
  rw [if_neg hle, if_neg hge]; ring

/-- Evaluation of the spec's radius formula at mass 1, density 1: the raw
cube root of 3/(4 pi) is below 1, hence below MIN_BODY_RADIUS, so the clamp
returns MIN_BODY_RADIUS. -/
lemma radius_spec_one_one : radius_spec 1 1 = MIN_BODY_RADIUS := by
  have hpi3 := Real.pi_gt_three
  unfold radius_spec
  have hbase : (0 : ℝ) ≤ 3 * 1 / (4 * Real.pi * 1) := by positivity
  have hle1 : 3 * 1 / (4 * Real.pi * 1) ≤ 1 := by
    rw [div_le_one (by nlinarith)]; nlinarith
  have hraw : (3 * 1 / (4 * Real.pi * 1)) ^ ((1 : ℝ) / 3) ≤ 1 :=
    Real.rpow_le_one hbase hle1 (by norm_num)
  have : (3 * 1 / (4 * Real.pi * 1)) ^ ((1 : ℝ) / 3) < MIN_BODY_RADIUS := by
    unfold MIN_BODY_RADIUS; linarith
  rw [if_pos this]

/-- C1: the claim states that the radius computed at construction equals
`clamp((3m/(4 pi d))^(1/3), MIN, MAX)`, which is also the formula in the
docstring of Body._calculate_radius (from V = m/d = 4/3 pi r^3).  The code
instead computes `(3/4 * pi) * (m/d)^(1/3)`: at mass 1 and density 1 the
code yields 3 pi / 4 (about 2.36) while the documented formula yields the
clamp floor MIN_BODY_RADIUS = 2, so the code contradicts its own docstring
and the claim fails on the code. -/
theorem C1_radius_code_bug :
    calculate_radius 1 1 = 3 / 4 * Real.pi ∧
    radius_spec 1 1 = MIN_BODY_RADIUS ∧
    calculate_radius 1 1 ≠ radius_spec 1 1 := by
  refine ⟨calculate_radius_one_one, radius_spec_one_one, ?_⟩
  rw [calculate_radius_one_one, radius_spec_one_one]
  have hpi3 := Real.pi_gt_three
  unfold MIN_BODY_RADIUS
  nlinarith

/-- Distance between the witness bodies bodyA and bodyB is 5. -/
lemma distAB :
    Real.sqrt ((bodyA.x - bodyB.x) ^ 2 + (bodyA.y - bodyB.y) ^ 2) = 5 := by
  have h : ((bodyA.x - bodyB.x) ^ 2 + (bodyA.y - bodyB.y) ^ 2 : ℝ) = 5 ^ 2 := by
    norm_num [bodyA, bodyB]
  rw [h, Real.sqrt_sq (by norm_num)]

/-- Distance between the witness bodies bodyA and bodyC is 1. -/
lemma distAC :
    Real.sqrt ((bodyA.x - bodyC.x) ^ 2 + (bodyA.y - bodyC.y) ^ 2) = 1 := by
  have h : ((bodyA.x - bodyC.x) ^ 2 + (bodyA.y - bodyC.y) ^ 2 : ℝ) = 1 ^ 2 := by
    norm_num [bodyA, bodyC]
  rw [h, Real.sqrt_sq (by norm_num)]

/-- C2: for distinct, non-overlapping bodies with `self` not stationary,
calculate_impact_on adds exactly `-(F * dx / d) / self.mass` to the x
velocity and `-(F * dy / d) / self.mass` to the y velocity, where
`F = g * m1 * m2 / d^2` uses self's own gravitational constant and `d` is
the Euclidean distance; every other field of `self` (position, mass,
radius, history, flags) is unchanged, and the result does not depend on
any mutation of `other` (the function returns only the new `self`). -/
theorem C2_impact_adds_velocity (self other : Body)
    (hs : self.is_stationary = false)
    (hd : self.radius + other.radius <
      Real.sqrt ((self.x - other.x) ^ 2 + (self.y - other.y) ^ 2)) :
    calculate_impact_on self other false =
      { self with
        vector :=
          (self.vector.1 +
            -(self.g_constant * self.mass * other.mass /
                Real.sqrt ((self.x - other.x) ^ 2 + (self.y - other.y) ^ 2) ^ 2 *
                (self.x - other.x) /
                Real.sqrt ((self.x - other.x) ^ 2 + (self.y - other.y) ^ 2)) /
              self.mass,
           self.vector.2 +
            -(self.g_constant * self.mass * other.mass /
                Real.sqrt ((self.x - other.x) ^ 2 + (self.y - other.y) ^ 2) ^ 2 *
                (self.y - other.y) /
                Real.sqrt ((self.x - other.x) ^ 2 + (self.y - other.y) ^ 2)) /
              self.mass) } :=
  impact_far self other hs hd

/-- Witness for C2 at bodyA (at the origin) and bodyB (five units east,
distance 5 > 1 + 1 = sum of radii). -/
theorem C2_impact_adds_velocity_witness :
    bodyA.is_stationary = false ∧
    bodyA.radius + bodyB.radius <
      Real.sqrt ((bodyA.x - bodyB.x) ^ 2 + (bodyA.y - bodyB.y) ^ 2) ∧
    calculate_impact_on bodyA bodyB false =
      { bodyA with
        vector :=
          (bodyA.vector.1 +
            -(bodyA.g_constant * bodyA.mass * bodyB.mass /
                Real.sqrt ((bodyA.x - bodyB.x) ^ 2 + (bodyA.y - bodyB.y) ^ 2) ^ 2 *
                (bodyA.x - bodyB.x) /
                Real.sqrt ((bodyA.x - bodyB.x) ^ 2 + (bodyA.y - bodyB.y) ^ 2)) /
              bodyA.mass,
           bodyA.vector.2 +
            -(bodyA.g_constant * bodyA.mass * bodyB.mass /
                Real.sqrt ((bodyA.x - bodyB.x) ^ 2 + (bodyA.y - bodyB.y) ^ 2) ^ 2 *
                (bodyA.y - bodyB.y) /
                Real.sqrt ((bodyA.x - bodyB.x) ^ 2 + (bodyA.y - bodyB.y) ^ 2)) /
              bodyA.mass) } := by
  have hd : bodyA.radius + bodyB.radius <
      Real.sqrt ((bodyA.x - bodyB.x) ^ 2 + (bodyA.y - bodyB.y) ^ 2) := by
    rw [distAB]; norm_num [bodyA, bodyB]
  exact ⟨rfl, hd, C2_impact_adds_velocity bodyA bodyB rfl hd⟩

/-- C3: each of the three guards of calculate_impact_on (stationary self,
identical pair, distance at most the sum of the radii) makes the call a
complete no-op; and coincident positions give distance zero, which for
nonnegative radii is caught by the distance guard, so the division by the
squared distance is unreachable at distance zero. -/
theorem C3_guards_make_no_op (self other : Body) (same : Bool) :
    (self.is_stationary = true → calculate_impact_on self other same = self) ∧
    (same = true → calculate_impact_on self other same = self) ∧
    (Real.sqrt ((self.x - other.x) ^ 2 + (self.y - other.y) ^ 2) ≤
        self.radius + other.radius →
      calculate_impact_on self other same = self) ∧
    (self.x = other.x → self.y = other.y →
      0 ≤ self.radius → 0 ≤ other.radius →
      calculate_impact_on self other same = self) := by
  refine ⟨impact_stationary self other same, ?_, impact_close self other same, ?_⟩
  · rintro rfl
    exact impact_same self other
  · intro hx hy hr1 hr2
    apply impact_close
    rw [hx, hy]
    simpa using add_nonneg hr1 hr2

/-- Witness for C3: the four guard situations at concrete bodies — a
stationary body, a self-pair, an overlapping pair at distance 1 with radii
summing to 2, and a coincident pair. -/
theorem C3_guards_make_no_op_witness :
    (bodyS.is_stationary = true ∧ calculate_impact_on bodyS bodyB false = bodyS) ∧
    calculate_impact_on bodyA bodyA true = bodyA ∧
    (Real.sqrt ((bodyA.x - bodyC.x) ^ 2 + (bodyA.y - bodyC.y) ^ 2) ≤
        bodyA.radius + bodyC.radius ∧
      calculate_impact_on bodyA bodyC false = bodyA) ∧
    (bodyA.x = bodyD.x ∧ bodyA.y = bodyD.y ∧
      calculate_impact_on bodyA bodyD false = bodyA) := by
  have hAC : Real.sqrt ((bodyA.x - bodyC.x) ^ 2 + (bodyA.y - bodyC.y) ^ 2) ≤
      bodyA.radius + bodyC.radius := by
    rw [distAC]; norm_num [bodyA, bodyC]
  refine ⟨⟨rfl, (C3_guards_make_no_op bodyS bodyB false).1 rfl⟩,
    (C3_guards_make_no_op bodyA bodyA true).2.1 rfl,
    ⟨hAC, (C3_guards_make_no_op bodyA bodyC false).2.2.1 hAC⟩,
    ⟨rfl, rfl, (C3_guards_make_no_op bodyA bodyD false).2.2.2 rfl rfl
      (by norm_num [bodyA]) (by norm_num [bodyD])⟩⟩

/-- C4: Body.update first performs the Euler step `position += velocity`
and then applies the boundary rule to each axis independently: a
coordinate below the radius becomes `radius + 1` with the velocity
component damped to `-loss_factor` times its previous value, a coordinate
above `limit - radius` becomes `limit - radius` with the same damping
(limit = WIDTH for x, HEIGHT for y), and otherwise the coordinate and the
velocity component are unchanged; mass and radius are untouched. -/
theorem C4_update_euler_then_bounce (b : Body) :
    ((Body.update b).x =
      if b.x + b.vector.1 < b.radius then 1 + b.radius
      else if b.x + b.vector.1 > WIDTH - b.radius then WIDTH - b.radius
      else b.x + b.vector.1) ∧
    ((Body.update b).vector.1 =
      if b.x + b.vector.1 < b.radius then -VELOCITY_LOSS_FACTOR * b.vector.1
      else if b.x + b.vector.1 > WIDTH - b.radius then
        -VELOCITY_LOSS_FACTOR * b.vector.1
      else b.vector.1) ∧
    ((Body.update b).y =
      if b.y + b.vector.2 < b.radius then 1 + b.radius
      else if b.y + b.vector.2 > HEIGHT - b.radius then HEIGHT - b.radius
      else b.y + b.vector.2) ∧
    ((Body.update b).vector.2 =
      if b.y + b.vector.2 < b.radius then -VELOCITY_LOSS_FACTOR * b.vector.2
      else if b.y + b.vector.2 > HEIGHT - b.radius then
        -VELOCITY_LOSS_FACTOR * b.vector.2
      else b.vector.2) ∧
    (Body.update b).mass = b.mass ∧ (Body.update b).radius = b.radius :=
  ⟨update_x b, update_vx b, update_y b, update_vy b, rfl, rfl⟩

/-- C10: the is_stationary flag does not freeze a body's position.  Under
the flag, calculate_impact_on never changes anything (the only effect of
the flag), while Body.update still integrates the position by the full
Euler-plus-bounce rule; in particular a flagged body whose next position
stays clear of both walls moves by exactly its velocity vector. -/
theorem C10_stationary_flag_only_blocks_impacts (b : Body)
    (hb : b.is_stationary = true) :
    (∀ other same, calculate_impact_on b other same = b) ∧
    ((Body.update b).x =
      if b.x + b.vector.1 < b.radius then 1 + b.radius
      else if b.x + b.vector.1 > WIDTH - b.radius then WIDTH - b.radius
      else b.x + b.vector.1) ∧
    ((Body.update b).y =
      if b.y + b.vector.2 < b.radius then 1 + b.radius
      else if b.y + b.vector.2 > HEIGHT - b.radius then HEIGHT - b.radius
      else b.y + b.vector.2) ∧
    (b.radius ≤ b.x + b.vector.1 → b.x + b.vector.1 ≤ WIDTH - b.radius →
      (Body.update b).x = b.x + b.vector.1) := by
  refine ⟨fun other same => impact_stationary b other same hb,
    update_x b, update_y b, fun h1 h2 => ?_⟩
  rw [update_x b, if_neg (not_lt.mpr h1), if_neg (not_lt.mpr h2)]

/-- Witness for C10 at the stationary body bodyS, whose position moves
from x = 500 to x = 501 in one update. -/
theorem C10_stationary_flag_only_blocks_impacts_witness :
    bodyS.is_stationary = true ∧
    calculate_impact_on bodyS bodyB false = bodyS ∧
    (Body.update bodyS).x = 501 ∧ bodyS.x = 500 := by
  have h := C10_stationary_flag_only_blocks_impacts bodyS rfl
  have hmove : (Body.update bodyS).x = bodyS.x + bodyS.vector.1 := by
    apply h.2.2.2
    · norm_num [bodyS]
    · norm_num [bodyS, WIDTH]
  refine ⟨rfl, h.1 bodyB false, ?_, rfl⟩
  rw [hmove]; norm_num [bodyS]

/-! Helper lemmas for the position-history bound. -/

lemma deque_append_length (cap : ℕ) (hcap : 1 ≤ cap) (q : List (ℝ × ℝ))
    (a : ℝ × ℝ) (hq : q.length ≤ cap) :
    (deque_append cap q a).length = min (q.length + 1) cap := by
  unfold deque_append
  split_ifs with h
  · simp only [List.length_append, List.length_singleton]
    omega
  · simp only [List.length_append, List.length_drop, List.length_singleton]
    omega

lemma updateN_hist_length (b : Body)
    (hb : b.pos_history.length ≤ BODY_TRAIL_LENGTH) (n : ℕ) :
    (updateN n b).pos_history.length =
      min (b.pos_history.length + n) BODY_TRAIL_LENGTH := by
  induction n with
  | zero =>
      simp only [updateN]
      omega
  | succ n ih =>
      have hle : (updateN n b).pos_history.length ≤ BODY_TRAIL_LENGTH := by
        rw [ih]; omega
      have hcap : 1 ≤ BODY_TRAIL_LENGTH := by norm_num [BODY_TRAIL_LENGTH]
      simp only [updateN, update_hist,
        deque_append_length BODY_TRAIL_LENGTH hcap _ _ hle]
      omega

/-- C8: each Body.update appends exactly one entry — the post-Euler,
pre-bounce position — at the tail of the history, evicting the head
(the oldest entry, FIFO) exactly when the history is full; and starting
from a freshly constructed body, after n updates the history length is
min n BODY_TRAIL_LENGTH, hence never exceeds the capacity and equals the
capacity once n reaches it. -/
theorem C8_history_bounded_fifo :
    (∀ b : Body,
      (Body.update b).pos_history =
        (if b.pos_history.length < BODY_TRAIL_LENGTH then b.pos_history
         else b.pos_history.drop 1) ++ [(b.x + b.vector.1, b.y + b.vector.2)]) ∧
    (∀ (number : ℕ) (mass : ℝ) (ix iy : ℤ) (vec : ℝ × ℝ) (st : Bool)
      (g d : ℝ) (n : ℕ),
      (updateN n (mkBody number mass ix iy vec st g d)).pos_history.length =
          min n BODY_TRAIL_LENGTH ∧
        (updateN n (mkBody number mass ix iy vec st g d)).pos_history.length ≤
          BODY_TRAIL_LENGTH) := by
  constructor
  · intro b
    rw [update_hist]
    unfold deque_append
    split_ifs <;> rfl
  · intro number mass ix iy vec st g d n
    have hlen0 : (mkBody number mass ix iy vec st g d).pos_history.length = 0 :=
      rfl
    have h := updateN_hist_length (mkBody number mass ix iy vec st g d)
      (by rw [hlen0]; omega) n
    rw [hlen0] at h
    exact ⟨by omega, by omega⟩

/-! Helper lemmas about the canvas pass. -/

lemma canvas_loop_zero (i : ℕ) (state : List Body) :
    canvas_loop 0 i state = state := rfl

lemma canvas_loop_succ (fuel i : ℕ) (state : List Body) :
    canvas_loop (fuel + 1) i state =
      canvas_loop fuel (i + 1) (state.set i (Body.update (inner_pass state i))) :=
  rfl

lemma inner_pass3_0 (x y z : Body) :
    inner_pass [x, y, z] 0 =
      calculate_impact_on (calculate_impact_on x y false) z false := rfl

lemma inner_pass3_1 (x y z : Body) :
    inner_pass [x, y, z] 1 =
      calculate_impact_on (calculate_impact_on y x false) z false := rfl

lemma inner_pass3_2 (x y z : Body) :
    inner_pass [x, y, z] 2 =
      calculate_impact_on (calculate_impact_on z x false) y false := rfl

/-- C5: on a three-body canvas, Canvas.update processes the bodies in
insertion order: the first body accumulates the impacts of the second and
the third (in order) and is integrated at once; the second body's impact
pass already sees the integrated first body; the third sees both
integrated bodies.  This exhibits the asymmetric, order-sensitive scheme —
later bodies observe earlier bodies' already-integrated positions, not a
buffered symmetric update. -/
theorem C5_update_order_sensitive (a b c : Body) :
    canvas_update [a, b, c] =
      let a' := Body.update
        (calculate_impact_on (calculate_impact_on a b false) c false)
      let b' := Body.update
        (calculate_impact_on (calculate_impact_on b a' false) c false)
      let c' := Body.update
        (calculate_impact_on (calculate_impact_on c a' false) b' false)
      [a', b', c'] := by
  show canvas_loop 3 0 [a, b, c] = _
  rw [canvas_loop_succ, inner_pass3_0]
  simp only [List.set_cons_zero, List.set_cons_succ]
  rw [canvas_loop_succ, inner_pass3_1]
  simp only [List.set_cons_zero, List.set_cons_succ]
  rw [canvas_loop_succ, inner_pass3_2]
  simp only [List.set_cons_zero, List.set_cons_succ]
  exact canvas_loop_zero 3 _

/-! Helper lemmas for the simulation lifecycle. -/

lemma tickN_params (n : ℕ) (s : Simulation) : (tickN n s).params = s.params := by
  induction n with
  | zero => rfl
  | succ n ih => simp only [tickN, Simulation.tick, ih]

lemma init_bodies_length (p : SimulationParams) : (init_bodies p).length = 3 :=
  rfl

/-- C7: any number of consecutive resets, after any number of elapsed
ticks, restores exactly the construction-time state: three bodies with the
identical initial positions and velocities.  In particular consecutive
resets are idempotent. -/
theorem C7_reset_restores_initial_state (p : SimulationParams) (n k : ℕ) :
    resetN (k + 1) (tickN n (Simulation.start p)) = Simulation.start p ∧
    (resetN (k + 1) (tickN n (Simulation.start p))).bodies.length = 3 := by
  have hfix : ∀ k : ℕ, resetN (k + 1) (tickN n (Simulation.start p)) =
      Simulation.start p := by
    intro k
    induction k with
    | zero =>
        show Simulation.reset (tickN n (Simulation.start p)) = Simulation.start p
        unfold Simulation.reset Simulation.start
        rw [tickN_params]
    | succ k ih =>
        show Simulation.reset (resetN (k + 1) (tickN n (Simulation.start p))) =
          Simulation.start p
        rw [ih]
        rfl
  exact ⟨hfix k, by rw [hfix k]; exact init_bodies_length p⟩

/-! Helper lemmas for the initial triangular layout. -/

lemma pyInt_eq (x : ℝ) (n : ℤ) (h0 : 0 ≤ x) (h1 : (n : ℝ) ≤ x)
    (h2 : x < n + 1) : pyInt x = n := by
  unfold pyInt
  rw [if_pos h0]
  exact Int.floor_eq_iff.mpr ⟨h1, h2⟩

lemma one_lt_sqrt_three : 1 < Real.sqrt 3 := by
  have h3 : Real.sqrt 3 ^ 2 = 3 := Real.sq_sqrt (by norm_num)
  nlinarith [Real.sqrt_nonneg 3]

lemma sqrt_three_lt_two : Real.sqrt 3 < 2 := by
  have h3 : Real.sqrt 3 ^ 2 = 3 := Real.sq_sqrt (by norm_num)
  nlinarith [Real.sqrt_nonneg 3]

lemma triangle_dist01 (d : ℝ) (hd : 0 ≤ d) (cx cy h : ℝ) :
    planar_dist (cx - d / 2, cy + h / 2) (cx + d / 2, cy + h / 2) = d := by
  show Real.sqrt
      ((cx - d / 2 - (cx + d / 2)) ^ 2 + (cy + h / 2 - (cy + h / 2)) ^ 2) = d
  rw [show (cx - d / 2 - (cx + d / 2)) ^ 2 + (cy + h / 2 - (cy + h / 2)) ^ 2 =
      d ^ 2 by ring, Real.sqrt_sq hd]

lemma triangle_dist12 (d : ℝ) (hd : 0 ≤ d) (cx cy : ℝ) :
    planar_dist (cx + d / 2, cy + Real.sqrt 3 / 2 * d / 2)
      (cx, cy - Real.sqrt 3 / 2 * d / 2) = d := by
  have h3 : Real.sqrt 3 ^ 2 = 3 := Real.sq_sqrt (by norm_num)
  show Real.sqrt ((cx + d / 2 - cx) ^ 2 +
      (cy + Real.sqrt 3 / 2 * d / 2 - (cy - Real.sqrt 3 / 2 * d / 2)) ^ 2) = d
  rw [show (cx + d / 2 - cx) ^ 2 +
      (cy + Real.sqrt 3 / 2 * d / 2 - (cy - Real.sqrt 3 / 2 * d / 2)) ^ 2 =
      d ^ 2 by linear_combination d ^ 2 / 4 * h3, Real.sqrt_sq hd]

lemma triangle_dist20 (d : ℝ) (hd : 0 ≤ d) (cx cy : ℝ) :
    planar_dist (cx, cy - Real.sqrt 3 / 2 * d / 2)
      (cx - d / 2, cy + Real.sqrt 3 / 2 * d / 2) = d := by
  have h3 : Real.sqrt 3 ^ 2 = 3 := Real.sq_sqrt (by norm_num)
  show Real.sqrt ((cx - (cx - d / 2)) ^ 2 +
      (cy - Real.sqrt 3 / 2 * d / 2 - (cy + Real.sqrt 3 / 2 * d / 2)) ^ 2) = d
  rw [show (cx - (cx - d / 2)) ^ 2 +
      (cy - Real.sqrt 3 / 2 * d / 2 - (cy + Real.sqrt 3 / 2 * d / 2)) ^ 2 =
      d ^ 2 by linear_combination d ^ 2 / 4 * h3, Real.sqrt_sq hd]

/-- C6 counterexample: with body_distance 2 the claim's equilateral layout
fails on the code.  The stored positions are the `int()`-truncated
vertices (499, 500), (501, 500) and (500, 499); the distance between the
first and the third stored body is the square root of 2, not the edge
length 2. -/
theorem C6_counterexample_truncation :
    planar_dist
        (((init_bodies pC6).getD 0 default).x,
         ((init_bodies pC6).getD 0 default).y)
        (((init_bodies pC6).getD 2 default).x,
         ((init_bodies pC6).getD 2 default).y) ≠
      pC6.body_distance := by
  have h1 := one_lt_sqrt_three
  have h2 := sqrt_three_lt_two
  have hx0 : ((init_bodies pC6).getD 0 default).x =
      ((pyInt (WIDTH / 2 - pC6.body_distance / 2) : ℤ) : ℝ) := rfl
  have hy0 : ((init_bodies pC6).getD 0 default).y =
      ((pyInt (HEIGHT / 2 + Real.sqrt 3 / 2 * pC6.body_distance / 2) : ℤ) : ℝ) :=
    rfl
  have hx2 : ((init_bodies pC6).getD 2 default).x =
      ((pyInt (WIDTH / 2) : ℤ) : ℝ) := rfl
  have hy2 : ((init_bodies pC6).getD 2 default).y =
      ((pyInt (HEIGHT / 2 - Real.sqrt 3 / 2 * pC6.body_distance / 2) : ℤ) : ℝ) :=
    rfl
  have hp0 : pyInt (WIDTH / 2 - pC6.body_distance / 2) = 499 := by
    rw [show WIDTH / 2 - pC6.body_distance / 2 = (499 : ℝ) by
      simp only [WIDTH, pC6]; norm_num]
    exact pyInt_eq _ 499 (by norm_num) (by norm_num) (by norm_num)
  have hq0 : pyInt (HEIGHT / 2 + Real.sqrt 3 / 2 * pC6.body_distance / 2) =
      500 := by
    rw [show HEIGHT / 2 + Real.sqrt 3 / 2 * pC6.body_distance / 2 =
        500 + Real.sqrt 3 / 2 by simp only [HEIGHT, pC6]; ring]
    exact pyInt_eq _ 500 (by positivity)
      (by push_cast; linarith [Real.sqrt_nonneg 3]) (by push_cast; linarith)
  have hp2 : pyInt (WIDTH / 2) = 500 := by
    rw [show WIDTH / 2 = (500 : ℝ) by simp only [WIDTH]; norm_num]
    exact pyInt_eq _ 500 (by norm_num) (by norm_num) (by norm_num)
  have hq2 : pyInt (HEIGHT / 2 - Real.sqrt 3 / 2 * pC6.body_distance / 2) =
      499 := by
    rw [show HEIGHT / 2 - Real.sqrt 3 / 2 * pC6.body_distance / 2 =
        500 - Real.sqrt 3 / 2 by simp only [HEIGHT, pC6]; ring]
    exact pyInt_eq _ 499 (by linarith) (by push_cast; linarith)
      (by push_cast; linarith)
  rw [hx0, hy0, hx2, hy2, hp0, hq0, hp2, hq2]
  show Real.sqrt ((((499 : ℤ) : ℝ) - ((500 : ℤ) : ℝ)) ^ 2 +
      (((500 : ℤ) : ℝ) - ((499 : ℤ) : ℝ)) ^ 2) ≠ pC6.body_distance
  rw [show (((499 : ℤ) : ℝ) - ((500 : ℤ) : ℝ)) ^ 2 +
      (((500 : ℤ) : ℝ) - ((499 : ℤ) : ℝ)) ^ 2 = 2 by push_cast; norm_num]
  intro hcontra
  have hsq := Real.sq_sqrt (show (0 : ℝ) ≤ 2 by norm_num)
  rw [show pC6.body_distance = (2 : ℝ) from rfl] at hcontra
  rw [hcontra] at hsq
  norm_num at hsq

/-- C6 amended: the three bodies are created from the vertices of the
exact equilateral triangle of edge length body_distance whose bounding box
is centered in the WIDTH x HEIGHT display, in cyclic order; each stored
initial position is the corresponding exact vertex truncated by Python's
`int()`, and each initial velocity is (next exact vertex minus own exact
vertex) times DEFAULT_BODY_VELOCITY_FACTOR — the velocities use the exact
vertices, the stored positions the truncated ones. -/
theorem C6_amended_truncated_triangle (p : SimulationParams)
    (hd : 0 ≤ p.body_distance) :
    init_bodies p =
        [mkBody 1 p.mass (pyInt (WIDTH / 2 - p.body_distance / 2))
            (pyInt (HEIGHT / 2 + Real.sqrt 3 / 2 * p.body_distance / 2))
            ((WIDTH / 2 + p.body_distance / 2 -
                (WIDTH / 2 - p.body_distance / 2)) *
                DEFAULT_BODY_VELOCITY_FACTOR,
             (HEIGHT / 2 + Real.sqrt 3 / 2 * p.body_distance / 2 -
                (HEIGHT / 2 + Real.sqrt 3 / 2 * p.body_distance / 2)) *
                DEFAULT_BODY_VELOCITY_FACTOR)
            false p.g_constant DEFAULT_BODY_DENSITY,
         mkBody 2 p.mass (pyInt (WIDTH / 2 + p.body_distance / 2))
            (pyInt (HEIGHT / 2 + Real.sqrt 3 / 2 * p.body_distance / 2))
            ((WIDTH / 2 - (WIDTH / 2 + p.body_distance / 2)) *
                DEFAULT_BODY_VELOCITY_FACTOR,
             (HEIGHT / 2 - Real.sqrt 3 / 2 * p.body_distance / 2 -
                (HEIGHT / 2 + Real.sqrt 3 / 2 * p.body_distance / 2)) *
                DEFAULT_BODY_VELOCITY_FACTOR)
            false p.g_constant DEFAULT_BODY_DENSITY,
         mkBody 3 p.mass (pyInt (WIDTH / 2))
            (pyInt (HEIGHT / 2 - Real.sqrt 3 / 2 * p.body_distance / 2))
            ((WIDTH / 2 - p.body_distance / 2 - WIDTH / 2) *
                DEFAULT_BODY_VELOCITY_FACTOR,
             (HEIGHT / 2 + Real.sqrt 3 / 2 * p.body_distance / 2 -
                (HEIGHT / 2 - Real.sqrt 3 / 2 * p.body_distance / 2)) *
                DEFAULT_BODY_VELOCITY_FACTOR)
            false p.g_constant DEFAULT_BODY_DENSITY] ∧
      planar_dist
          (WIDTH / 2 - p.body_distance / 2,
           HEIGHT / 2 + Real.sqrt 3 / 2 * p.body_distance / 2)
          (WIDTH / 2 + p.body_distance / 2,
           HEIGHT / 2 + Real.sqrt 3 / 2 * p.body_distance / 2) =
        p.body_distance ∧
      planar_dist
          (WIDTH / 2 + p.body_distance / 2,
           HEIGHT / 2 + Real.sqrt 3 / 2 * p.body_distance / 2)
          (WIDTH / 2, HEIGHT / 2 - Real.sqrt 3 / 2 * p.body_distance / 2) =
        p.body_distance ∧
      planar_dist
          (WIDTH / 2, HEIGHT / 2 - Real.sqrt 3 / 2 * p.body_distance / 2)
          (WIDTH / 2 - p.body_distance / 2,
           HEIGHT / 2 + Real.sqrt 3 / 2 * p.body_distance / 2) =
        p.body_distance ∧
      (WIDTH / 2 - p.body_distance / 2 + (WIDTH / 2 + p.body_distance / 2)) /
          2 = WIDTH / 2 ∧
      (HEIGHT / 2 + Real.sqrt 3 / 2 * p.body_distance / 2 +
          (HEIGHT / 2 - Real.sqrt 3 / 2 * p.body_distance / 2)) / 2 =
        HEIGHT / 2 :=
  ⟨rfl,
    triangle_dist01 p.body_distance hd (WIDTH / 2) (HEIGHT / 2)
      (Real.sqrt 3 / 2 * p.body_distance),
    triangle_dist12 p.body_distance hd (WIDTH / 2) (HEIGHT / 2),
    triangle_dist20 p.body_distance hd (WIDTH / 2) (HEIGHT / 2),
    by ring, by ring⟩

/-- Witness for the amended C6 at the parameters pC6 (body_distance 2). -/
theorem C6_amended_truncated_triangle_witness :
    0 ≤ pC6.body_distance ∧
    init_bodies pC6 =
        [mkBody 1 pC6.mass (pyInt (WIDTH / 2 - pC6.body_distance / 2))
            (pyInt (HEIGHT / 2 + Real.sqrt 3 / 2 * pC6.body_distance / 2))
            ((WIDTH / 2 + pC6.body_distance / 2 -
                (WIDTH / 2 - pC6.body_distance / 2)) *
                DEFAULT_BODY_VELOCITY_FACTOR,
             (HEIGHT / 2 + Real.sqrt 3 / 2 * pC6.body_distance / 2 -
                (HEIGHT / 2 + Real.sqrt 3 / 2 * pC6.body_distance / 2)) *
                DEFAULT_BODY_VELOCITY_FACTOR)
            false pC6.g_constant DEFAULT_BODY_DENSITY,
         mkBody 2 pC6.mass (pyInt (WIDTH / 2 + pC6.body_distance / 2))
            (pyInt (HEIGHT / 2 + Real.sqrt 3 / 2 * pC6.body_distance / 2))
            ((WIDTH / 2 - (WIDTH / 2 + pC6.body_distance / 2)) *
                DEFAULT_BODY_VELOCITY_FACTOR,
             (HEIGHT / 2 - Real.sqrt 3 / 2 * pC6.body_distance / 2 -
                (HEIGHT / 2 + Real.sqrt 3 / 2 * pC6.body_distance / 2)) *
                DEFAULT_BODY_VELOCITY_FACTOR)
            false pC6.g_constant DEFAULT_BODY_DENSITY,
         mkBody 3 pC6.mass (pyInt (WIDTH / 2))
            (pyInt (HEIGHT / 2 - Real.sqrt 3 / 2 * pC6.body_distance / 2))
            ((WIDTH / 2 - pC6.body_distance / 2 - WIDTH / 2) *
                DEFAULT_BODY_VELOCITY_FACTOR,
             (HEIGHT / 2 + Real.sqrt 3 / 2 * pC6.body_distance / 2 -
                (HEIGHT / 2 - Real.sqrt 3 / 2 * pC6.body_distance / 2)) *
                DEFAULT_BODY_VELOCITY_FACTOR)
            false pC6.g_constant DEFAULT_BODY_DENSITY] ∧
      planar_dist
          (WIDTH / 2 - pC6.body_distance / 2,
           HEIGHT / 2 + Real.sqrt 3 / 2 * pC6.body_distance / 2)
          (WIDTH / 2 + pC6.body_distance / 2,
           HEIGHT / 2 + Real.sqrt 3 / 2 * pC6.body_distance / 2) =
        pC6.body_distance := by
  have h := C6_amended_truncated_triangle pC6 (by norm_num [pC6])
  exact ⟨by norm_num [pC6], h.1, h.2.1⟩

/-! Helper lemmas for the in-bounds invariant of the end-to-end scenario:
whatever the numeric trajectories do, every body's radius is produced by
the construction-time clamp, and the boundary bounce of Body.update then
pins every post-tick coordinate inside the display. -/

lemma calculate_radius_mem (m d : ℝ) :
    MIN_BODY_RADIUS ≤ calculate_radius m d ∧
      calculate_radius m d ≤ MAX_BODY_RADIUS := by
  simp only [calculate_radius]
  split_ifs with h1 h2
  · constructor
    · norm_num [MIN_BODY_RADIUS, MAX_BODY_RADIUS]
    · exact le_refl _
  · constructor
    · exact le_refl _
    · norm_num [MIN_BODY_RADIUS, MAX_BODY_RADIUS]
  · exact ⟨not_lt.mp h2, not_lt.mp h1⟩

lemma impact_radius (self other : Body) (same : Bool) :
    (calculate_impact_on self other same).radius = self.radius := by
  simp only [calculate_impact_on]
  split_ifs <;> rfl

lemma foldl_impact_radius (l : List ℕ) (state : List Body) (i : ℕ) :
    ∀ b : Body,
      (l.foldl
        (fun b j =>
          if j = i then b else calculate_impact_on b (state.getD j default) false)
        b).radius = b.radius := by
  induction l with
  | nil => intro b; rfl
  | cons j t ih =>
      intro b
      rw [List.foldl_cons, ih]
      by_cases h : j = i
      · rw [if_pos h]
      · rw [if_neg h, impact_radius]

lemma inner_pass_radius (state : List Body) (i : ℕ) :
    (inner_pass state i).radius = (state.getD i default).radius :=
  foldl_impact_radius (List.range state.length) state i (state.getD i default)

lemma radius_ok_congr (b c : Body) (h : b.radius = c.radius)
    (hc : radius_ok c) : radius_ok b :=
  ⟨by rw [h]; exact hc.1, by rw [h]; exact hc.2⟩

lemma default_radius_ok : radius_ok (default : Body) := by
  have h : (default : Body).radius = 0 := rfl
  exact ⟨by rw [h], by rw [h]; norm_num⟩

lemma default_in_bounds : in_display_bounds (default : Body) := by
  have hx : (default : Body).x = 0 := rfl
  have hy : (default : Body).y = 0 := rfl
  unfold in_display_bounds
  rw [hx, hy]
  norm_num [WIDTH, HEIGHT]

lemma update_in_bounds (b : Body) (h : radius_ok b) :
    in_display_bounds (Body.update b) := by
  obtain ⟨h0, h499⟩ := h
  unfold in_display_bounds
  rw [update_x, update_y]
  simp only [WIDTH, HEIGHT] at *
  refine ⟨?_, ?_, ?_, ?_⟩ <;> split_ifs <;> linarith

lemma getD_set_self (c : Body) (state : List Body) (i : ℕ)
    (h : i < state.length) : (state.set i c).getD i default = c := by
  rw [List.getD_eq_getElem?_getD, List.getElem?_set_eq_of_lt c h]
  rfl

lemma getD_set_other (c : Body) (state : List Body) (i j : ℕ) (h : i ≠ j) :
    (state.set i c).getD j default = state.getD j default := by
  rw [List.getD_eq_getElem?_getD, List.getElem?_set_ne h,
    ← List.getD_eq_getElem?_getD]

lemma getD_default_of_le (state : List Body) (i : ℕ)
    (h : state.length ≤ i) : state.getD i default = default := by
  rw [List.getD_eq_getElem?_getD, List.getElem?_eq_none h]
  rfl

lemma set_updated_radius (state : List Body) (i : ℕ)
    (h : ∀ j, radius_ok (state.getD j default)) :
    ∀ j, radius_ok
      ((state.set i (Body.update (inner_pass state i))).getD j default) := by
  intro j
  by_cases hij : i = j
  · subst hij
    by_cases hl : i < state.length
    · rw [getD_set_self _ _ _ hl]
      refine radius_ok_congr _ (state.getD i default) ?_ (h i)
      rw [update_radius, inner_pass_radius]
    · rw [List.set_eq_of_length_le (le_of_not_lt hl)]
      exact h i
  · rw [getD_set_other _ _ _ _ hij]
    exact h j

lemma canvas_loop_radius (fuel : ℕ) :
    ∀ (i : ℕ) (state : List Body),
      (∀ j, radius_ok (state.getD j default)) →
      ∀ j, radius_ok ((canvas_loop fuel i state).getD j default) := by
  induction fuel with
  | zero => intro i state h j; exact h j
  | succ fuel ih =>
      intro i state h j
      rw [canvas_loop_succ]
      exact ih (i + 1) _ (set_updated_radius state i h) j

lemma canvas_loop_bounds (fuel : ℕ) :
    ∀ (i : ℕ) (state : List Body),
      (∀ j, radius_ok (state.getD j default)) →
      (∀ j, j < i → in_display_bounds (state.getD j default)) →
      ∀ j, j < i + fuel →
        in_display_bounds ((canvas_loop fuel i state).getD j default) := by
  induction fuel with
  | zero =>
      intro i state _ hpre j hj
      exact hpre j (by omega)
  | succ fuel ih =>
      intro i state hrad hpre j hj
      rw [canvas_loop_succ]
      refine ih (i + 1) _ (set_updated_radius state i hrad) ?_ j (by omega)
      intro k hk
      by_cases hki : i = k
      · subst hki
        by_cases hl : i < state.length
        · rw [getD_set_self _ _ _ hl]
          refine update_in_bounds _ ?_
          exact radius_ok_congr _ (state.getD i default)
            (inner_pass_radius state i) (hrad i)
        · rw [List.set_eq_of_length_le (le_of_not_lt hl),
            getD_default_of_le _ _ (le_of_not_lt hl)]
          exact default_in_bounds
      · rw [getD_set_other _ _ _ _ hki]
        exact hpre k (by omega)

lemma canvas_loop_length (fuel : ℕ) :
    ∀ (i : ℕ) (state : List Body),
      (canvas_loop fuel i state).length = state.length := by
  induction fuel with
  | zero => intro i state; rfl
  | succ fuel ih =>
      intro i state
      rw [canvas_loop_succ, ih, List.length_set]

lemma canvas_update_length (state : List Body) :
    (canvas_update state).length = state.length :=
  canvas_loop_length state.length 0 state

lemma canvas_update_radius (state : List Body)
    (h : ∀ j, radius_ok (state.getD j default)) :
    ∀ j, radius_ok ((canvas_update state).getD j default) :=
  canvas_loop_radius state.length 0 state h

lemma canvas_update_bounds (state : List Body)
    (h : ∀ j, radius_ok (state.getD j default)) :
    ∀ j, j < state.length →
      in_display_bounds ((canvas_update state).getD j default) := by
  intro j hj
  exact canvas_loop_bounds state.length 0 state h
    (fun k hk => absurd hk (Nat.not_lt_zero k)) j (by omega)

lemma canvas_updateN_length (n : ℕ) (state : List Body) :
    (canvas_updateN n state).length = state.length := by
  induction n with
  | zero => rfl
  | succ n ih =>
      show (canvas_update (canvas_updateN n state)).length = state.length
      rw [canvas_update_length, ih]

lemma canvas_updateN_radius (n : ℕ) (state : List Body)
    (h : ∀ j, radius_ok (state.getD j default)) :
    ∀ j, radius_ok ((canvas_updateN n state).getD j default) := by
  induction n with
  | zero => exact h
  | succ n ih =>
      show ∀ j, radius_ok
        ((canvas_update (canvas_updateN n state)).getD j default)
      exact canvas_update_radius _ ih

lemma init_radius_ok (p : SimulationParams) :
    ∀ j, radius_ok ((init_bodies p).getD j default) := by
  have hmem := calculate_radius_mem p.mass DEFAULT_BODY_DENSITY
  rw [MIN_BODY_RADIUS, MAX_BODY_RADIUS] at hmem
  intro j
  obtain _ | (_ | (_ | j)) := j
  · have hr : ((init_bodies p).getD 0 default).radius =
        calculate_radius p.mass DEFAULT_BODY_DENSITY := rfl
    exact ⟨by rw [hr]; linarith [hmem.1], by rw [hr]; linarith [hmem.2]⟩
  · have hr : ((init_bodies p).getD 1 default).radius =
        calculate_radius p.mass DEFAULT_BODY_DENSITY := rfl
    exact ⟨by rw [hr]; linarith [hmem.1], by rw [hr]; linarith [hmem.2]⟩
  · have hr : ((init_bodies p).getD 2 default).radius =
        calculate_radius p.mass DEFAULT_BODY_DENSITY := rfl
    exact ⟨by rw [hr]; linarith [hmem.1], by rw [hr]; linarith [hmem.2]⟩
  · rw [getD_default_of_le _ _ (by rw [init_bodies_length]; omega)]
    exact default_radius_ok

/-- C9: in the end-to-end scenario (three bodies of mass 1000 in the
triangle of side 333, G = 0.6), after every tick each of the three bodies
lies inside the [0, WIDTH] x [0, HEIGHT] display: the construction clamp
keeps every radius in [2, 100] forever, and the per-axis bounce of
Body.update then pins every post-tick coordinate between 0 and the limit.
In the real-number embedding every position and velocity is a well-defined
(finite) real at every tick, so the NaN/infinity clause is expressed by
the theorem being total. -/
theorem C9_scenario_stays_in_bounds (n : ℕ) :
    (canvas_updateN (n + 1) (init_bodies pC9)).length = 3 ∧
    in_display_bounds
      ((canvas_updateN (n + 1) (init_bodies pC9)).getD 0 default) ∧
    in_display_bounds
      ((canvas_updateN (n + 1) (init_bodies pC9)).getD 1 default) ∧
    in_display_bounds
      ((canvas_updateN (n + 1) (init_bodies pC9)).getD 2 default) := by
  have hrad : ∀ j, radius_ok
      ((canvas_updateN n (init_bodies pC9)).getD j default) :=
    canvas_updateN_radius n _ (init_radius_ok pC9)
  have hlen : (canvas_updateN n (init_bodies pC9)).length = 3 := by
    rw [canvas_updateN_length, init_bodies_length]
  have hstep : canvas_updateN (n + 1) (init_bodies pC9) =
      canvas_update (canvas_updateN n (init_bodies pC9)) := rfl
  refine ⟨?_, ?_, ?_, ?_⟩ <;> rw [hstep]
  · rw [canvas_update_length, hlen]
  · exact canvas_update_bounds _ hrad 0 (by rw [hlen]; omega)
  · exact canvas_update_bounds _ hrad 1 (by rw [hlen]; omega)
  · exact canvas_update_bounds _ hrad 2 (by rw [hlen]; omega)

end ThreeBody
